import Mathlib

/-!
Shallow embedding of the chat backend's core handlers
(`getUserConversations`, `sendMessage`, `markMessageRead`, `startTyping`,
`getTypingIndicators`, `searchMessages`) over a relational store modelled
as ordered lists of rows.  SQL selects are modelled as order-preserving
filters/joins; `uuid` defaults and `now()` defaults become explicit
`newId` / `now` parameters; JavaScript truthiness on nullable string
fields (`if (input.channel_id)`) is modelled by `isTruthy`, which is
false for both `none` and the empty string.  Timestamps are integers
(seconds).  Thrown errors become `Except.error` with the handler's
message string; a handler that throws leaves the store unchanged.
-/

namespace Chat

/-- `user_status` enum from the schema. -/
inductive UserStatus
  | online
  | away
  | busy
  | offline
deriving DecidableEq

/-- `provider` enum from the schema. -/
inductive Provider
  | google
  | github
  | discord
deriving DecidableEq

/-- `channel_type` enum from the schema (`public` is a Lean keyword, hence `pub`/`priv`). -/
inductive ChannelType
  | pub
  | priv
deriving DecidableEq

/-- `message_type` enum from the schema. -/
inductive MessageType
  | text
  | image
  | system
deriving DecidableEq

/-- `member_role` enum from the schema. -/
inductive MemberRole
  | owner
  | admin
  | member
deriving DecidableEq

/-- A row of `users`. -/
structure User where
  id : String
  email : String := ""
  display_name : String := ""
  avatar_url : Option String := none
  provider : Provider := Provider.google
  provider_id : String := ""
  status : UserStatus := UserStatus.offline
  last_seen : Option Int := none
  created_at : Int := 0
  updated_at : Int := 0
deriving DecidableEq

/-- A row of `channels`. -/
structure Channel where
  id : String
  name : String := ""
  description : Option String := none
  type : ChannelType := ChannelType.pub
  created_by : String := ""
  created_at : Int := 0
  updated_at : Int := 0
deriving DecidableEq

/-- A row of `groups`; `name` is nullable for unnamed group chats. -/
structure Group where
  id : String
  name : Option String := none
  created_by : String := ""
  created_at : Int := 0
  updated_at : Int := 0
deriving DecidableEq

/-- The structured link preview stored in the `link_preview` jsonb column. -/
structure LinkPreview where
  url : String
  title : Option String := none
  description : Option String := none
  image : Option String := none
deriving DecidableEq

/-- A row of `messages`; at most one of `channel_id`/`group_id`/`recipient_id`
is meant to be set (enforced by `sendMessage`, not by the schema). -/
structure Message where
  id : String
  content : String := ""
  type : MessageType := MessageType.text
  author_id : String := ""
  channel_id : Option String := none
  group_id : Option String := none
  recipient_id : Option String := none
  image_url : Option String := none
  link_preview : Option LinkPreview := none
  reply_to_id : Option String := none
  edited_at : Option Int := none
  created_at : Int := 0
deriving DecidableEq

/-- A row of `channel_members`. -/
structure ChannelMember where
  id : String := ""
  channel_id : String
  user_id : String
  role : MemberRole := MemberRole.member
  joined_at : Int := 0
deriving DecidableEq

/-- A row of `group_members`. -/
structure GroupMember where
  id : String := ""
  group_id : String
  user_id : String
  joined_at : Int := 0
deriving DecidableEq

/-- A row of `message_reads` (read receipts). -/
structure MessageRead where
  id : String
  message_id : String
  user_id : String
  read_at : Int := 0
deriving DecidableEq

/-- A row of `typing_indicators`. -/
structure TypingIndicator where
  id : String
  user_id : String
  channel_id : Option String := none
  group_id : Option String := none
  recipient_id : Option String := none
  started_at : Int := 0
deriving DecidableEq

/-- The relational store: one ordered list of rows per table. -/
structure DB where
  users : List User := []
  channels : List Channel := []
  groups : List Group := []
  messages : List Message := []
  channelMembers : List ChannelMember := []
  groupMembers : List GroupMember := []
  messageReads : List MessageRead := []
  typingIndicators : List TypingIndicator := []
deriving DecidableEq

/-- JavaScript truthiness of a nullable string: `null`/`undefined` and `""` are falsy. -/
def isTruthy : Option String → Bool
  | none => false
  | some s => s != ""

/-- JavaScript `x || null` on a nullable string: empty string collapses to `null`. -/
def orNull (o : Option String) : Option String :=
  if isTruthy o then o else none

/-- JavaScript `a || b` where `a` is a nullable string and `b` a string. -/
def jsOrString (a : Option String) (b : String) : String :=
  match a with
  | some s => if s == "" then b else s
  | none => b

/-- The three conversation kinds of the polymorphic `Conversation` view. -/
inductive ConvType
  | channel
  | group
  | direct
deriving DecidableEq

/-- The `Conversation` view object returned by `getUserConversations`. -/
structure Conversation where
  id : String
  name : String
  type : ConvType
  participants : List User
  last_message : Option Message
  unread_count : Nat
deriving DecidableEq

/-- Does a `message_reads` row by `userId` exist for message `mid`?
(the left-join-plus-`isNull` test of `getUnreadCount`). -/
def userHasRead (db : DB) (userId mid : String) : Bool :=
  db.messageReads.any (fun r => r.message_id == mid && r.user_id == userId)

/-- `getUnreadCount` from `get_user_conversations.ts`: count messages of the
conversation that have no read receipt by `userId` (left anti-join).  For
`direct`, `conversationId` is the peer's user id and only messages authored
by the peer and addressed to `userId` (with channel and group unset) count. -/
def getUnreadCount (db : DB) (userId conversationId : String) (ty : ConvType) : Nat :=
  let cond : Message → Bool :=
    match ty with
    | ConvType.channel => fun m => m.channel_id == some conversationId
    | ConvType.group => fun m => m.group_id == some conversationId
    | ConvType.direct => fun m =>
        m.author_id == conversationId && m.recipient_id == some userId &&
        m.channel_id == none && m.group_id == none
  (db.messages.filter (fun m => cond m && !(userHasRead db userId m.id))).length

/-- `orderBy desc(created_at) limit 1`: first row of maximal `created_at`
(a fixed tie-break, as the source's SQL leaves ties arbitrary). -/
def lastMessageIn (msgs : List Message) : Option Message :=
  msgs.foldl
    (fun acc m =>
      match acc with
      | none => some m
      | some b => if b.created_at < m.created_at then some m else acc)
    none

/-- `channels innerJoin channel_members` filtered to `userId`'s memberships:
one channel row per matching membership row. -/
def channelRowsFor (db : DB) (userId : String) : List Channel :=
  db.channels.flatMap (fun c =>
    (db.channelMembers.filter (fun cm => cm.channel_id == c.id && cm.user_id == userId)).map
      (fun _ => c))

/-- `users innerJoin channel_members` for one channel: the participant list. -/
def channelParticipants (db : DB) (cid : String) : List User :=
  db.users.flatMap (fun u =>
    (db.channelMembers.filter (fun cm => cm.user_id == u.id && cm.channel_id == cid)).map
      (fun _ => u))

/-- `groups innerJoin group_members` filtered to `userId`'s memberships. -/
def groupRowsFor (db : DB) (userId : String) : List Group :=
  db.groups.flatMap (fun g =>
    (db.groupMembers.filter (fun gm => gm.group_id == g.id && gm.user_id == userId)).map
      (fun _ => g))

/-- `users innerJoin group_members` for one group: the participant list. -/
def groupParticipants (db : DB) (gid : String) : List User :=
  db.users.flatMap (fun u =>
    (db.groupMembers.filter (fun gm => gm.user_id == u.id && gm.group_id == gid)).map
      (fun _ => u))

/-- The last-message view object rebuilt by `getChannelConversations`
(only the selected columns survive; the rest are hard-coded nulls). -/
def rebuildChannelLast (cid : String) (m : Message) : Message :=
  { id := m.id, content := m.content, type := m.type, author_id := m.author_id,
    channel_id := some cid, group_id := none, recipient_id := none,
    image_url := none, link_preview := none, reply_to_id := none,
    edited_at := none, created_at := m.created_at }

/-- The last-message view object rebuilt by `getGroupConversations`. -/
def rebuildGroupLast (gid : String) (m : Message) : Message :=
  { id := m.id, content := m.content, type := m.type, author_id := m.author_id,
    channel_id := none, group_id := some gid, recipient_id := none,
    image_url := none, link_preview := none, reply_to_id := none,
    edited_at := none, created_at := m.created_at }

/-- The last-message view object rebuilt by `getDirectMessageConversations`. -/
def rebuildDirectLast (otherId : String) (m : Message) : Message :=
  { id := m.id, content := m.content, type := m.type, author_id := m.author_id,
    channel_id := none, group_id := none, recipient_id := some otherId,
    image_url := none, link_preview := none, reply_to_id := none,
    edited_at := none, created_at := m.created_at }

/-- One loop iteration of `getChannelConversations`. -/
def buildChannelConv (db : DB) (userId : String) (c : Channel) : Conversation :=
  { id := c.id,
    name := c.name,
    type := ConvType.channel,
    participants := channelParticipants db c.id,
    last_message :=
      (lastMessageIn (db.messages.filter (fun m => m.channel_id == some c.id))).map
        (rebuildChannelLast c.id),
    unread_count := getUnreadCount db userId c.id ConvType.channel }

/-- `getChannelConversations` from `get_user_conversations.ts`. -/
def getChannelConversations (db : DB) (userId : String) : List Conversation :=
  (channelRowsFor db userId).map (buildChannelConv db userId)

/-- One loop iteration of `getGroupConversations`, including the
name-generation fallback chain
`group_name || joined-participant-names || 'Unnamed Group'`. -/
def buildGroupConv (db : DB) (userId : String) (g : Group) : Conversation :=
  let participants := groupParticipants db g.id
  let joined :=
    String.intercalate ", "
      ((participants.filter (fun p => p.id != userId)).map (fun p => p.display_name))
  { id := g.id,
    name := jsOrString g.name (if joined == "" then "Unnamed Group" else joined),
    type := ConvType.group,
    participants := participants,
    last_message :=
      (lastMessageIn (db.messages.filter (fun m => m.group_id == some g.id))).map
        (rebuildGroupLast g.id),
    unread_count := getUnreadCount db userId g.id ConvType.group }

/-- `getGroupConversations` from `get_user_conversations.ts`. -/
def getGroupConversations (db : DB) (userId : String) : List Conversation :=
  (groupRowsFor db userId).map (buildGroupConv db userId)

/-- First-occurrence deduplication, as `Set` insertion order in JavaScript. -/
def addUnique (l : List String) (x : String) : List String :=
  if l.contains x then l else l ++ [x]

/-- The deduplicated direct-message peer ids of `userId`, in first-message order
(the `Set` built by `getDirectMessageConversations`). -/
def dmPeerIds (db : DB) (userId : String) : List String :=
  let dms := db.messages.filter (fun m =>
    (m.author_id == userId || m.recipient_id == some userId) &&
    m.channel_id == none && m.group_id == none)
  dms.foldl
    (fun acc m =>
      if m.author_id == userId && isTruthy m.recipient_id then
        addUnique acc (m.recipient_id.getD "")
      else if m.recipient_id == some userId && m.author_id != "" then
        addUnique acc m.author_id
      else acc)
    []

/-- One loop iteration of `getDirectMessageConversations`; `none` models the
`continue` taken when either user lookup comes back empty. -/
def buildDirectConv (db : DB) (userId otherUserId : String) : Option Conversation :=
  match db.users.find? (fun u => u.id == otherUserId) with
  | none => none
  | some otherUser =>
    match db.users.find? (fun u => u.id == userId) with
    | none => none
    | some currentUser =>
      let msgs := db.messages.filter (fun m =>
        ((m.author_id == userId && m.recipient_id == some otherUserId) ||
         (m.author_id == otherUserId && m.recipient_id == some userId)) &&
        m.channel_id == none && m.group_id == none)
      some
        { id := otherUser.id,
          name := otherUser.display_name,
          type := ConvType.direct,
          participants := [currentUser, otherUser],
          last_message := (lastMessageIn msgs).map (rebuildDirectLast otherUser.id),
          unread_count := getUnreadCount db userId otherUserId ConvType.direct }

/-- `getDirectMessageConversations` from `get_user_conversations.ts`. -/
def getDirectMessageConversations (db : DB) (userId : String) : List Conversation :=
  (dmPeerIds db userId).filterMap (buildDirectConv db userId)

/-- The merged (pre-sort) conversation list: channels, then groups, then DMs. -/
def mergedConversations (db : DB) (userId : String) : List Conversation :=
  getChannelConversations db userId ++ getGroupConversations db userId ++
    getDirectMessageConversations db userId

/-- The sort comparator of `getUserConversations`: descending by last-message
timestamp, conversations without messages last, ties compare equal. -/
def convCmp (a b : Conversation) : Int :=
  match a.last_message, b.last_message with
  | none, none => 0
  | none, some _ => 1
  | some _, none => -1
  | some ma, some mb => mb.created_at - ma.created_at

/-- Stable insertion of `x` after every already-placed element that compares
before-or-equal to it. -/
def insertConv (x : Conversation) : List Conversation → List Conversation
  | [] => [x]
  | y :: ys => if convCmp y x ≤ 0 then y :: insertConv x ys else x :: y :: ys

/-- Stable sort by `convCmp`, modelling `Array.prototype.sort` (stable per the
ECMAScript specification) with the source's comparator. -/
def sortConversations (l : List Conversation) : List Conversation :=
  l.foldl (fun acc x => insertConv x acc) []

/-- `getUserConversations`: merge the three conversation kinds and sort. -/
def getUserConversations (db : DB) (userId : String) : List Conversation :=
  sortConversations (mergedConversations db userId)

/-- `SendMessageInput` (zod schema): ids are plain strings, destinations and
reply target nullable/optional. -/
structure SendMessageInput where
  content : String := ""
  type : MessageType := MessageType.text
  author_id : String
  channel_id : Option String := none
  group_id : Option String := none
  recipient_id : Option String := none
  image_url : Option String := none
  reply_to_id : Option String := none
deriving DecidableEq

/-- Case-insensitive check that `cs` starts with the characters of `pat`. -/
def startsWithCI (pat : String) (cs : List Char) : Bool :=
  (cs.take pat.length).map Char.toLower == pat.data

/-- The match of `/(https?:\/\/[^\s]+)/gi` beginning at this position, if any:
a scheme (case-insensitive) followed by at least one non-whitespace character;
the match extends to the next whitespace. -/
def urlMatchAt (cs : List Char) : Option String :=
  if startsWithCI "https://" cs && (cs.drop 8).takeWhile (fun c => !c.isWhitespace) != [] then
    some (String.mk (cs.takeWhile (fun c => !c.isWhitespace)))
  else if startsWithCI "http://" cs && (cs.drop 7).takeWhile (fun c => !c.isWhitespace) != [] then
    some (String.mk (cs.takeWhile (fun c => !c.isWhitespace)))
  else
    none

/-- First URL-regex match in a character list (leftmost position wins). -/
def firstUrlAux : List Char → Option String
  | [] => none
  | c :: rest =>
    match urlMatchAt (c :: rest) with
    | some u => some u
    | none => firstUrlAux rest

/-- `content.match(URL_REGEX)`, first match. -/
def firstUrl (content : String) : Option String :=
  firstUrlAux content.data

/-- `extractLinkPreview` from `send_message.ts`: mock preview built from the
first URL found, `none` when the content has no URL. -/
def extractLinkPreview (content : String) : Option LinkPreview :=
  match firstUrl content with
  | none => none
  | some u =>
    some { url := u, title := some ("Link Preview for " ++ u),
           description := some "Generated link preview", image := none }

/-- Number of non-null members of `{channel_id, group_id, recipient_id}`
(`filter(dest => dest != null).length`; an empty string still counts). -/
def destinationCount (i : SendMessageInput) : Nat :=
  ([i.channel_id, i.group_id, i.recipient_id].filter Option.isSome).length

/-- The membership row looked up by `validateDestination` for a channel destination. -/
def channelMemberExists (db : DB) (i : SendMessageInput) : Bool :=
  db.channelMembers.any (fun cm =>
    some cm.channel_id == i.channel_id && cm.user_id == i.author_id)

/-- The membership row looked up by `validateDestination` for a group destination. -/
def groupMemberExists (db : DB) (i : SendMessageInput) : Bool :=
  db.groupMembers.any (fun gm =>
    some gm.group_id == i.group_id && gm.user_id == i.author_id)

/-- The user row looked up by `validateDestination` for a direct destination. -/
def recipientExists (db : DB) (i : SendMessageInput) : Bool :=
  db.users.any (fun u => some u.id == i.recipient_id)

/-- The same-destination test applied to a reply target (`sameDest` in
`send_message.ts`): same channel, same group, or the same DM pair in either
direction. -/
def sameDest (i : SendMessageInput) (orig : Message) : Bool :=
  (isTruthy i.channel_id && orig.channel_id == i.channel_id) ||
  (isTruthy i.group_id && orig.group_id == i.group_id) ||
  (isTruthy i.recipient_id &&
    ((orig.recipient_id == i.recipient_id && orig.author_id == i.author_id) ||
     (some orig.author_id == i.recipient_id && orig.recipient_id == some i.author_id)))

def destinationErrorMsg : String :=
  "Message must have exactly one destination (channel, group, or recipient)"

def channelMemberErrorMsg : String := "User is not a member of the specified channel"

def groupMemberErrorMsg : String := "User is not a member of the specified group"

def recipientErrorMsg : String := "Recipient user does not exist"

def replyTargetErrorMsg : String := "Reply target message does not exist"

def replyCrossErrorMsg : String := "Reply must be to message in same conversation"

def authorErrorMsg : String := "Author user does not exist"

/-- `validateDestination` from `send_message.ts`: destination-count check,
then the access/extent checks (each guarded by truthiness of its field, each
throwing on failure), then the reply-target checks. -/
def validateDestination (db : DB) (i : SendMessageInput) : Except String Unit :=
  if destinationCount i != 1 then
    Except.error destinationErrorMsg
  else if isTruthy i.channel_id && !(channelMemberExists db i) then
    Except.error channelMemberErrorMsg
  else if isTruthy i.group_id && !(groupMemberExists db i) then
    Except.error groupMemberErrorMsg
  else if isTruthy i.recipient_id && !(recipientExists db i) then
    Except.error recipientErrorMsg
  else if isTruthy i.reply_to_id then
    match db.messages.find? (fun m => some m.id == i.reply_to_id) with
    | none => Except.error replyTargetErrorMsg
    | some orig =>
      if sameDest i orig then Except.ok () else Except.error replyCrossErrorMsg
  else
    Except.ok ()

/-- `sendMessage` from `send_message.ts`: author-existence check, destination
validation, link-preview extraction, then a single insert into `messages`.
A thrown error leaves the store unchanged.  (The subsequent read-only
response assembly — author join, reply-target fetch — is not modelled; no
claim refers to the response shape beyond the persisted row.) -/
def sendMessage (db : DB) (i : SendMessageInput) (now : Int) (newId : String) :
    Except String Message × DB :=
  if !(db.users.any (fun u => u.id == i.author_id)) then
    (Except.error authorErrorMsg, db)
  else
    match validateDestination db i with
    | Except.error e => (Except.error e, db)
    | Except.ok _ =>
      let linkPreview :=
        if i.type == MessageType.text then extractLinkPreview i.content else none
      let msg : Message :=
        { id := newId, content := i.content, type := i.type, author_id := i.author_id,
          channel_id := orNull i.channel_id, group_id := orNull i.group_id,
          recipient_id := orNull i.recipient_id, image_url := orNull i.image_url,
          link_preview := linkPreview, reply_to_id := orNull i.reply_to_id,
          edited_at := none, created_at := now }
      (Except.ok msg, { db with messages := db.messages ++ [msg] })

/-- Modelled from the spec's validation sequence (first failure wins):
author exists, exactly one destination, channel membership, group membership,
recipient exists, reply target exists and shares the destination.  This is
the claim-side ordering that `sendMessage` is compared against. -/
def firstValidationError (db : DB) (i : SendMessageInput) : Option String :=
  if !(db.users.any (fun u => u.id == i.author_id)) then
    some authorErrorMsg
  else if destinationCount i != 1 then
    some destinationErrorMsg
  else if isTruthy i.channel_id && !(channelMemberExists db i) then
    some channelMemberErrorMsg
  else if isTruthy i.group_id && !(groupMemberExists db i) then
    some groupMemberErrorMsg
  else if isTruthy i.recipient_id && !(recipientExists db i) then
    some recipientErrorMsg
  else if isTruthy i.reply_to_id then
    match db.messages.find? (fun m => some m.id == i.reply_to_id) with
    | none => some replyTargetErrorMsg
    | some orig => if sameDest i orig then none else some replyCrossErrorMsg
  else
    none

/-- `markMessageRead` from `mark_message_read.ts`: verify message and user,
return the existing receipt if one exists, otherwise insert a new one. -/
def markMessageRead (db : DB) (messageId userId : String) (now : Int) (newId : String) :
    Except String (MessageRead × DB) :=
  if !(db.messages.any (fun m => m.id == messageId)) then
    Except.error "Message not found"
  else if !(db.users.any (fun u => u.id == userId)) then
    Except.error "User not found"
  else
    match db.messageReads.find? (fun r => r.message_id == messageId && r.user_id == userId) with
    | some r => Except.ok (r, db)
    | none =>
      let r : MessageRead := { id := newId, message_id := messageId, user_id := userId,
                               read_at := now }
      Except.ok (r, { db with messageReads := db.messageReads ++ [r] })

/-- `StartTypingInput` (zod schema). -/
structure StartTypingInput where
  user_id : String
  channel_id : Option String := none
  group_id : Option String := none
  recipient_id : Option String := none
deriving DecidableEq

/-- The row-matching predicate `startTyping` builds: the user id plus a
condition on the *first* truthy location field of the input only; an input
with no truthy location matches every indicator of the user. -/
def startTypingMatches (i : StartTypingInput) (t : TypingIndicator) : Bool :=
  t.user_id == i.user_id &&
  (if isTruthy i.channel_id then t.channel_id == i.channel_id
   else if isTruthy i.group_id then t.group_id == i.group_id
   else if isTruthy i.recipient_id then t.recipient_id == i.recipient_id
   else true)

/-- `startTyping` from `start_typing.ts`: delete indicators older than the
10-second write-path cleanup window, then refresh the first matching
indicator, or insert a new row when none matches. -/
def startTyping (db : DB) (i : StartTypingInput) (now : Int) (newId : String) :
    TypingIndicator × DB :=
  let kept := db.typingIndicators.filter (fun t => !(decide (t.started_at < now - 10)))
  let db0 : DB := { db with typingIndicators := kept }
  match kept.find? (startTypingMatches i) with
  | some ex =>
    let updated := kept.map (fun t => if t.id == ex.id then { t with started_at := now } else t)
    ({ ex with started_at := now }, { db0 with typingIndicators := updated })
  | none =>
    let ti : TypingIndicator :=
      { id := newId, user_id := i.user_id, channel_id := orNull i.channel_id,
        group_id := orNull i.group_id, recipient_id := orNull i.recipient_id,
        started_at := now }
    (ti, { db0 with typingIndicators := kept ++ [ti] })

/-- `getTypingIndicators` (handler whose file name is unknown in this copy of
the repository): read-time filter keeping indicators started within the last
30 seconds, with optional conjunctive location filters. -/
def getTypingIndicators (db : DB) (now : Int)
    (channelId groupId recipientId : Option String) : List TypingIndicator :=
  db.typingIndicators.filter (fun t =>
    decide (now - 30 ≤ t.started_at) &&
    (!(isTruthy channelId) || t.channel_id == channelId) &&
    (!(isTruthy groupId) || t.group_id == groupId) &&
    (!(isTruthy recipientId) || t.recipient_id == recipientId))

/-- Does the character list `hay` contain `needle` as a contiguous run? -/
def charsContain : List Char → List Char → Bool
  | [], needle => needle.isEmpty
  | h :: t, needle => needle.isPrefixOf (h :: t) || charsContain t needle

/-- `ilike '%q%'`: case-insensitive substring containment (no wildcards in `q`). -/
def containsCI (content q : String) : Bool :=
  charsContain (content.data.map Char.toLower) (q.data.map Char.toLower)

/-- `messages innerJoin users` on the author id, for one message row. -/
def joinAuthor (db : DB) (m : Message) : List (Message × User) :=
  (db.users.filter (fun u => u.id == m.author_id)).map (fun u => (m, u))

/-- Insertion step for the `orderBy desc(created_at)` model on joined rows. -/
def insertRowDesc (x : Message × User) : List (Message × User) → List (Message × User)
  | [] => [x]
  | y :: ys =>
    if x.1.created_at ≤ y.1.created_at then y :: insertRowDesc x ys else x :: y :: ys

/-- Stable descending sort of joined rows by message creation time. -/
def sortRowsDesc (l : List (Message × User)) : List (Message × User) :=
  l.foldl (fun acc x => insertRowDesc x acc) []

/-- `searchMessages` (stored alongside the schema in this copy of the
repository): early empty return when the caller is not a member of an
explicitly filtered channel/group; otherwise content match AND
(dm-recipient OR dm-author OR channel access OR group access), ordered
newest-first, limited. -/
def searchMessages (db : DB) (searchQuery userId : String)
    (channelId groupId : Option String) (lim : Nat) : List (Message × User) :=
  if isTruthy channelId &&
      !(db.channelMembers.any (fun cm =>
        some cm.channel_id == channelId && cm.user_id == userId)) then
    []
  else if isTruthy groupId &&
      !(db.groupMembers.any (fun gm =>
        some gm.group_id == groupId && gm.user_id == userId)) then
    []
  else
    let userChannelIds :=
      (db.channelMembers.filter (fun cm => cm.user_id == userId)).map (fun cm => cm.channel_id)
    let userGroupIds :=
      (db.groupMembers.filter (fun gm => gm.user_id == userId)).map (fun gm => gm.group_id)
    let channelAccess : Message → Bool := fun m =>
      if isTruthy channelId then m.channel_id == channelId
      else
        match m.channel_id with
        | some cid => userChannelIds.contains cid
        | none => false
    let groupAccess : Message → Bool := fun m =>
      if isTruthy groupId then m.group_id == groupId
      else
        match m.group_id with
        | some gid => userGroupIds.contains gid
        | none => false
    let accessOk : Message → Bool := fun m =>
      (m.recipient_id == some userId && m.channel_id == none && m.group_id == none) ||
      (m.author_id == userId && m.channel_id == none && m.group_id == none) ||
      channelAccess m || groupAccess m
    let matched := db.messages.filter (fun m => containsCI m.content searchQuery && accessOk m)
    (sortRowsDesc (matched.flatMap (joinAuthor db))).take lim

/-!
### Spec-side (claim-side) definitions

These restate, in the spec's words, the quantities the implementation is
compared against.
-/

/-- Modelled from the spec: the unread count of a conversation for a user is
the number of messages belonging to that conversation for which no
`MessageRead` row by the user exists; for a direct conversation (identified
by the peer's user id) only messages authored by the peer with the user as
recipient, channel and group unset, are counted. -/
def specUnreadCount (db : DB) (userId convId : String) (ty : ConvType) : Nat :=
  match ty with
  | ConvType.channel =>
    (db.messages.filter (fun m =>
      m.channel_id == some convId && !(userHasRead db userId m.id))).length
  | ConvType.group =>
    (db.messages.filter (fun m =>
      m.group_id == some convId && !(userHasRead db userId m.id))).length
  | ConvType.direct =>
    (db.messages.filter (fun m =>
      m.author_id == convId && m.recipient_id == some userId &&
      m.channel_id == none && m.group_id == none &&
      !(userHasRead db userId m.id))).length

/-- Modelled from the spec: a group conversation is named by its explicit
name when it has one; otherwise by the comma-separated display names of the
participants other than the requesting user; and by a literal placeholder
when that join is empty. -/
def specGroupName (userId : String) (gname : Option String) (participants : List User) : String :=
  match gname with
  | some s => s
  | none =>
    let joined :=
      String.intercalate ", "
        ((participants.filter (fun p => p.id != userId)).map (fun p => p.display_name))
    if joined == "" then "Unnamed Group" else joined

/-- Modelled from the spec: the intended order of the conversation list —
descending by last-message timestamp, conversations without a last message
after all conversations that have one. -/
def sortedBefore (a b : Conversation) : Prop :=
  match a.last_message, b.last_message with
  | some ma, some mb => mb.created_at ≤ ma.created_at
  | some _, none => True
  | none, none => True
  | none, some _ => False

/-- Does message `m` belong to the conversation `conv` as viewed by `userId`?
(channel/group: by locator column; direct: either direction of the pair,
channel and group unset). -/
def msgInConversation (userId : String) (conv : Conversation) (m : Message) : Bool :=
  match conv.type with
  | ConvType.channel => m.channel_id == some conv.id
  | ConvType.group => m.group_id == some conv.id
  | ConvType.direct =>
      ((m.author_id == userId && m.recipient_id == some conv.id) ||
       (m.author_id == conv.id && m.recipient_id == some userId)) &&
      m.channel_id == none && m.group_id == none

/-!
### Lemmas about the conversation sort
-/

theorem specUnreadCount_eq_getUnreadCount (db : DB) (userId convId : String) (ty : ConvType) :
    specUnreadCount db userId convId ty = getUnreadCount db userId convId ty := by
  cases ty <;> rfl

theorem sortedBefore_iff_convCmp (a b : Conversation) :
    sortedBefore a b ↔ convCmp a b ≤ 0 := by
  cases ha : a.last_message <;> cases hb : b.last_message <;>
    (simp [sortedBefore, convCmp, ha, hb]; try omega)

theorem convCmp_total {x y : Conversation} (h : ¬ convCmp y x ≤ 0) : convCmp x y ≤ 0 := by
  cases hx : x.last_message <;> cases hy : y.last_message <;>
    (simp [convCmp, hx, hy] at *; try omega)

theorem convCmp_trans {a b c : Conversation}
    (h1 : convCmp a b ≤ 0) (h2 : convCmp b c ≤ 0) : convCmp a c ≤ 0 := by
  cases ha : a.last_message <;> cases hb : b.last_message <;> cases hc : c.last_message <;>
    (simp [convCmp, ha, hb, hc] at *; try omega)

theorem mem_insertConv {x z : Conversation} {l : List Conversation} :
    z ∈ insertConv x l ↔ z = x ∨ z ∈ l := by
  induction l with
  | nil => simp [insertConv]
  | cons y ys ih =>
    simp only [insertConv]
    split
    · simp only [List.mem_cons, ih]
      tauto
    · simp only [List.mem_cons]

theorem mem_foldl_insertConv {z : Conversation} (l acc : List Conversation) :
    z ∈ l.foldl (fun a x => insertConv x a) acc ↔ z ∈ acc ∨ z ∈ l := by
  induction l generalizing acc with
  | nil => simp
  | cons x xs ih =>
    simp only [List.foldl_cons, ih, mem_insertConv, List.mem_cons]
    tauto

theorem mem_sortConversations {z : Conversation} {l : List Conversation} :
    z ∈ sortConversations l ↔ z ∈ l := by
  simp [sortConversations, mem_foldl_insertConv]

theorem pairwise_insertConv {x : Conversation} {l : List Conversation}
    (h : l.Pairwise (fun a b => convCmp a b ≤ 0)) :
    (insertConv x l).Pairwise (fun a b => convCmp a b ≤ 0) := by
  induction l with
  | nil => simp [insertConv]
  | cons y ys ih =>
    rw [List.pairwise_cons] at h
    obtain ⟨hy, hys⟩ := h
    simp only [insertConv]
    split
    · rename_i hcmp
      rw [List.pairwise_cons]
      refine ⟨?_, ih hys⟩
      intro z hz
      rcases mem_insertConv.mp hz with rfl | hz'
      · exact hcmp
      · exact hy z hz'
    · rename_i hcmp
      rw [List.pairwise_cons]
      refine ⟨?_, List.pairwise_cons.mpr ⟨hy, hys⟩⟩
      intro z hz
      rcases List.mem_cons.mp hz with rfl | hz'
      · exact convCmp_total hcmp
      · exact convCmp_trans (convCmp_total hcmp) (hy z hz')

theorem pairwise_foldl_insertConv (l acc : List Conversation)
    (hacc : acc.Pairwise (fun a b => convCmp a b ≤ 0)) :
    (l.foldl (fun a x => insertConv x a) acc).Pairwise (fun a b => convCmp a b ≤ 0) := by
  induction l generalizing acc with
  | nil => exact hacc
  | cons x xs ih => exact ih _ (pairwise_insertConv hacc)

theorem pairwise_sortConversations (l : List Conversation) :
    (sortConversations l).Pairwise (fun a b => convCmp a b ≤ 0) :=
  pairwise_foldl_insertConv l [] (List.Pairwise.nil)

theorem insertConv_of_none {x : Conversation} {l : List Conversation}
    (hx : x.last_message = none) : insertConv x l = l ++ [x] := by
  induction l with
  | nil => rfl
  | cons y ys ih =>
    cases hy : y.last_message <;>
      simp [insertConv, convCmp, hx, hy, ih]

theorem filter_insertConv_of_some {x : Conversation} {l : List Conversation}
    (hx : x.last_message.isNone = false) :
    (insertConv x l).filter (fun c => c.last_message.isNone) =
      l.filter (fun c => c.last_message.isNone) := by
  induction l with
  | nil => simp [insertConv, hx]
  | cons y ys ih =>
    simp only [insertConv]
    split
    · simp only [List.filter_cons, ih]
    · simp [List.filter_cons, hx]

theorem filter_foldl_insertConv (l acc : List Conversation) :
    ((l.foldl (fun a x => insertConv x a) acc).filter (fun c => c.last_message.isNone)) =
      acc.filter (fun c => c.last_message.isNone) ++
        l.filter (fun c => c.last_message.isNone) := by
  induction l generalizing acc with
  | nil => simp
  | cons x xs ih =>
    simp only [List.foldl_cons]
    rw [ih]
    cases hx : x.last_message with
    | none =>
      rw [insertConv_of_none hx, List.filter_append]
      have hxn : x.last_message.isNone = true := by simp [hx]
      simp [List.filter_cons, hxn]
    | some m =>
      have hxn : x.last_message.isNone = false := by simp [hx]
      rw [filter_insertConv_of_some hxn]
      simp [List.filter_cons, hxn]

theorem filter_sortConversations (l : List Conversation) :
    (sortConversations l).filter (fun c => c.last_message.isNone) =
      l.filter (fun c => c.last_message.isNone) := by
  simpa using filter_foldl_insertConv l []

/-- If a disjunctive conjunction is false, so is the conjunction built from
its second disjunct (pure Boolean fact used for the direct-message case). -/
theorem bool_second_disjunct_false : ∀ x y c d e : Bool,
    ((x || y) && c && d) = false → (y && c && d && e) = false := by
  decide

/-!
### Characterisation of the three conversation builders
-/

theorem mem_getChannelConversations {db : DB} {U : String} {conv : Conversation}
    (h : conv ∈ getChannelConversations db U) :
    ∃ c, c ∈ db.channels ∧ conv = buildChannelConv db U c := by
  rw [getChannelConversations] at h
  rcases List.mem_map.mp h with ⟨c, hc, rfl⟩
  rw [channelRowsFor] at hc
  rcases List.mem_flatMap.mp hc with ⟨c', hc', hin⟩
  rcases List.mem_map.mp hin with ⟨_, _, rfl⟩
  exact ⟨c', hc', rfl⟩

theorem mem_getGroupConversations {db : DB} {U : String} {conv : Conversation}
    (h : conv ∈ getGroupConversations db U) :
    ∃ g, g ∈ db.groups ∧ conv = buildGroupConv db U g := by
  rw [getGroupConversations] at h
  rcases List.mem_map.mp h with ⟨g, hg, rfl⟩
  rw [groupRowsFor] at hg
  rcases List.mem_flatMap.mp hg with ⟨g', hg', hin⟩
  rcases List.mem_map.mp hin with ⟨_, _, rfl⟩
  exact ⟨g', hg', rfl⟩

theorem buildDirectConv_some {db : DB} {U pid : String} {conv : Conversation}
    (h : buildDirectConv db U pid = some conv) :
    ∃ otherUser currentUser,
      db.users.find? (fun u => u.id == pid) = some otherUser ∧
      db.users.find? (fun u => u.id == U) = some currentUser ∧
      otherUser.id = pid ∧
      conv =
        { id := otherUser.id,
          name := otherUser.display_name,
          type := ConvType.direct,
          participants := [currentUser, otherUser],
          last_message :=
            (lastMessageIn (db.messages.filter (fun m =>
              ((m.author_id == U && m.recipient_id == some pid) ||
               (m.author_id == pid && m.recipient_id == some U)) &&
              m.channel_id == none && m.group_id == none))).map
              (rebuildDirectLast otherUser.id),
          unread_count := getUnreadCount db U pid ConvType.direct } := by
  unfold buildDirectConv at h
  cases h1 : db.users.find? (fun u => u.id == pid) with
  | none => rw [h1] at h; cases h
  | some otherUser =>
    rw [h1] at h
    cases h2 : db.users.find? (fun u => u.id == U) with
    | none => rw [h2] at h; cases h
    | some currentUser =>
      rw [h2] at h
      have hid : otherUser.id = pid := by
        have hfound := List.find?_some h1
        simpa using hfound
      refine ⟨otherUser, currentUser, rfl, rfl, hid, ?_⟩
      exact (Option.some.inj h).symm

theorem mem_getDirectMessageConversations {db : DB} {U : String} {conv : Conversation}
    (h : conv ∈ getDirectMessageConversations db U) :
    ∃ pid, pid ∈ dmPeerIds db U ∧ buildDirectConv db U pid = some conv := by
  rw [getDirectMessageConversations] at h
  exact List.mem_filterMap.mp h

/-- Every conversation in the merged list is one of the three builder shapes. -/
theorem mem_mergedConversations {db : DB} {U : String} {conv : Conversation}
    (h : conv ∈ mergedConversations db U) :
    (∃ c, c ∈ db.channels ∧ conv = buildChannelConv db U c) ∨
    (∃ g, g ∈ db.groups ∧ conv = buildGroupConv db U g) ∨
    (∃ pid, pid ∈ dmPeerIds db U ∧ buildDirectConv db U pid = some conv) := by
  rw [mergedConversations] at h
  rcases List.mem_append.mp h with h' | hd
  · rcases List.mem_append.mp h' with hc | hg
    · exact Or.inl (mem_getChannelConversations hc)
    · exact Or.inr (Or.inl (mem_getGroupConversations hg))
  · exact Or.inr (Or.inr (mem_getDirectMessageConversations hd))

/-- C1: every conversation returned by `getUserConversations` carries as its
`unread_count` exactly the number of messages of that conversation for which
no `MessageRead` row by the requesting user exists (a left anti-join, not a
raw count), and for a direct conversation only messages authored by the peer
with the requesting user as recipient (channel and group unset) are counted. -/
theorem getUserConversations_unread_count (db : DB) (U : String) (conv : Conversation)
    (h : conv ∈ getUserConversations db U) :
    conv.unread_count = specUnreadCount db U conv.id conv.type := by
  rw [specUnreadCount_eq_getUnreadCount]
  rw [getUserConversations, mem_sortConversations] at h
  rcases mem_mergedConversations h with ⟨c, _, rfl⟩ | ⟨g, _, rfl⟩ | ⟨pid, _, hb⟩
  · rfl
  · rfl
  · rcases buildDirectConv_some hb with ⟨ou, cu, _, _, hid, rfl⟩
    simp [hid]

/-- C5: the conversation list is pairwise ordered descending by last-message
timestamp with message-less conversations after all others; the relative
order of the message-less conversations is that of the merged (pre-sort)
list; and a conversation with zero messages has `last_message = none` and
`unread_count = 0`. -/
theorem getUserConversations_sorted (db : DB) (U : String) :
    (getUserConversations db U).Pairwise sortedBefore ∧
    (getUserConversations db U).filter (fun c => c.last_message.isNone) =
      (mergedConversations db U).filter (fun c => c.last_message.isNone) ∧
    ∀ conv ∈ getUserConversations db U,
      (∀ m ∈ db.messages, msgInConversation U conv m = false) →
      conv.last_message = none ∧ conv.unread_count = 0 := by
  refine ⟨?_, filter_sortConversations _, ?_⟩
  · exact (pairwise_sortConversations (mergedConversations db U)).imp
      (fun h => (sortedBefore_iff_convCmp _ _).mpr h)
  · intro conv hconv hmsg
    rw [getUserConversations, mem_sortConversations] at hconv
    rcases mem_mergedConversations hconv with ⟨c, _, rfl⟩ | ⟨g, _, rfl⟩ | ⟨pid, _, hb⟩
    · have hfilter : db.messages.filter (fun m => m.channel_id == some c.id) = [] := by
        refine List.filter_eq_nil_iff.mpr (fun m hm => ?_)
        have := hmsg m hm
        simpa [msgInConversation, buildChannelConv] using this
      have hfilter2 : db.messages.filter
          (fun m => m.channel_id == some c.id && !(userHasRead db U m.id)) = [] := by
        refine List.filter_eq_nil_iff.mpr (fun m hm => ?_)
        have := hmsg m hm
        simp only [msgInConversation, buildChannelConv] at this
        simp [this]
      constructor
      · simp [buildChannelConv, hfilter, lastMessageIn]
      · simp [buildChannelConv, getUnreadCount, hfilter2]
    · have hfilter : db.messages.filter (fun m => m.group_id == some g.id) = [] := by
        refine List.filter_eq_nil_iff.mpr (fun m hm => ?_)
        have := hmsg m hm
        simpa [msgInConversation, buildGroupConv] using this
      have hfilter2 : db.messages.filter
          (fun m => m.group_id == some g.id && !(userHasRead db U m.id)) = [] := by
        refine List.filter_eq_nil_iff.mpr (fun m hm => ?_)
        have := hmsg m hm
        simp only [msgInConversation, buildGroupConv] at this
        simp [this]
      constructor
      · simp [buildGroupConv, hfilter, lastMessageIn]
      · simp [buildGroupConv, getUnreadCount, hfilter2]
    · rcases buildDirectConv_some hb with ⟨ou, cu, _, _, hid, rfl⟩
      have key : ∀ m ∈ db.messages,
          (((m.author_id == U && m.recipient_id == some pid) ||
            (m.author_id == pid && m.recipient_id == some U)) &&
           m.channel_id == none && m.group_id == none) = false := by
        intro m hm
        have := hmsg m hm
        simp only [msgInConversation, hid] at this
        exact this
      have hfilter : db.messages.filter (fun m =>
          ((m.author_id == U && m.recipient_id == some pid) ||
           (m.author_id == pid && m.recipient_id == some U)) &&
          m.channel_id == none && m.group_id == none) = [] := by
        refine List.filter_eq_nil_iff.mpr (fun m hm => ?_)
        simp [key m hm]
      have hfilter2 : db.messages.filter (fun m =>
          m.author_id == pid && m.recipient_id == some U &&
          m.channel_id == none && m.group_id == none &&
          !(userHasRead db U m.id)) = [] := by
        refine List.filter_eq_nil_iff.mpr (fun m hm => ?_)
        have hanti := bool_second_disjunct_false
          (m.author_id == U && m.recipient_id == some pid)
          (m.author_id == pid && m.recipient_id == some U)
          (m.channel_id == none) (m.group_id == none)
          (!(userHasRead db U m.id)) (key m hm)
        simp [hanti]
      constructor
      · simp [hfilter, lastMessageIn]
      · simp [getUnreadCount, hfilter2]

/-- C6: a group conversation in the result is named by its explicit name when
it has one (all creatable group names are non-empty), otherwise by the
comma-separated display names of the participants other than the requesting
user, with a literal placeholder when that join is empty. -/
theorem getUserConversations_group_name (db : DB) (U : String) (conv : Conversation)
    (h : conv ∈ getUserConversations db U) (htype : conv.type = ConvType.group)
    (hnames : ∀ g ∈ db.groups, g.name ≠ some "") :
    ∃ g, g ∈ db.groups ∧ g.id = conv.id ∧
      conv.name = specGroupName U g.name conv.participants := by
  rw [getUserConversations, mem_sortConversations] at h
  rcases mem_mergedConversations h with ⟨c, _, rfl⟩ | ⟨g, hg, rfl⟩ | ⟨pid, _, hb⟩
  · exact absurd htype (by simp [buildChannelConv])
  · refine ⟨g, hg, rfl, ?_⟩
    have hname := hnames g hg
    cases hgn : g.name with
    | none => simp [buildGroupConv, specGroupName, jsOrString, hgn]
    | some s =>
      have hs : s ≠ "" := by
        intro hcontra
        exact hname (by rw [hgn, hcontra])
      simp [buildGroupConv, specGroupName, jsOrString, hgn, hs]
  · rcases buildDirectConv_some hb with ⟨ou, cu, _, _, _, rfl⟩
    exact absurd htype (by simp)

/-!
### Lemmas about `sendMessage`
-/

/-- `sendMessage` fails with `e` exactly when the spec-ordered validation
chain reports `e` as its first failure. -/
theorem sendMessage_error_iff (db : DB) (i : SendMessageInput) (now : Int) (newId : String)
    (e : String) :
    (sendMessage db i now newId).1 = Except.error e ↔
      firstValidationError db i = some e := by
  unfold sendMessage firstValidationError validateDestination
  cases hA : db.users.any (fun u => u.id == i.author_id) with
  | false => simp
  | true =>
    simp only [Bool.not_true, Bool.false_eq_true, if_false]
    by_cases h1 : (destinationCount i != 1) = true
    · simp [h1]
    · simp only [h1, if_false, Bool.false_eq_true]
      by_cases h2 : (isTruthy i.channel_id && !(channelMemberExists db i)) = true
      · simp [h2]
      · simp only [h2, if_false, Bool.false_eq_true]
        by_cases h3 : (isTruthy i.group_id && !(groupMemberExists db i)) = true
        · simp [h3]
        · simp only [h3, if_false, Bool.false_eq_true]
          by_cases h4 : (isTruthy i.recipient_id && !(recipientExists db i)) = true
          · simp [h4]
          · simp only [h4, if_false, Bool.false_eq_true]
            by_cases h5 : isTruthy i.reply_to_id = true
            · simp only [h5, if_true]
              cases hfind : db.messages.find? (fun m => some m.id == i.reply_to_id) with
              | none => simp
              | some orig =>
                by_cases h6 : sameDest i orig = true
                · simp [h6]
                · simp [h6]
            · simp [h5]

/-- A failing `sendMessage` leaves the store unchanged (the insert is only
reached after all validations pass). -/
theorem sendMessage_error_state (db : DB) (i : SendMessageInput) (now : Int) (newId : String)
    (e : String) (h : (sendMessage db i now newId).1 = Except.error e) :
    (sendMessage db i now newId).2 = db := by
  unfold sendMessage at h ⊢
  cases hA : db.users.any (fun u => u.id == i.author_id) with
  | false => simp [hA]
  | true =>
    simp only [hA] at h ⊢
    cases hv : validateDestination db i with
    | error e' => simp [hv]
    | ok _ => simp [hv] at h

/-- C3: `sendMessage` runs its validations in the fixed spec order — author
exists, exactly one destination, channel membership, group membership,
recipient exists, reply target exists and shares the destination — with the
first failure short-circuiting (the produced error is exactly the first
failure of that ordered chain), and on any validation failure the store,
in particular the message table, is unchanged. -/
theorem sendMessage_validation_order (db : DB) (i : SendMessageInput) (now : Int)
    (newId : String) (e : String) :
    ((sendMessage db i now newId).1 = Except.error e ↔
      firstValidationError db i = some e) ∧
    ((sendMessage db i now newId).1 = Except.error e →
      (sendMessage db i now newId).2 = db) :=
  ⟨sendMessage_error_iff db i now newId e, sendMessage_error_state db i now newId e⟩

/-- C3 witness: a concrete send whose author exists and whose destination is
a group the author does not belong to fails with the group-membership error
and leaves the store unchanged. -/
theorem sendMessage_validation_order_witness :
    (sendMessage { users := [{ id := "a" }] }
        { author_id := "a", group_id := some "g9", content := "hi" } 7 "n1").1 =
      Except.error groupMemberErrorMsg ∧
    (sendMessage { users := [{ id := "a" }] }
        { author_id := "a", group_id := some "g9", content := "hi" } 7 "n1").2 =
      { users := [{ id := "a" }] } := by
  have h := sendMessage_validation_order { users := [{ id := "a" }] }
    { author_id := "a", group_id := some "g9", content := "hi" } 7 "n1" groupMemberErrorMsg
  have he := h.1.mpr (by decide)
  exact ⟨he, h.2 he⟩

/-- C2: with an existing author, any input with zero, two, or three of the
destination fields set fails with the exactly-one-destination error and
persists nothing; with exactly one destination set, the exactly-one
check never fires. -/
theorem sendMessage_destination_count (db : DB) (i : SendMessageInput) (now : Int)
    (newId : String) :
    (destinationCount i ≠ 1 → (db.users.any (fun u => u.id == i.author_id)) = true →
      (sendMessage db i now newId).1 = Except.error destinationErrorMsg ∧
      (sendMessage db i now newId).2 = db) ∧
    (destinationCount i = 1 →
      (sendMessage db i now newId).1 ≠ Except.error destinationErrorMsg) := by
  constructor
  · intro hcount hA
    have hfve : firstValidationError db i = some destinationErrorMsg := by
      unfold firstValidationError
      simp [hA, hcount]
    have he := (sendMessage_error_iff db i now newId destinationErrorMsg).mpr hfve
    exact ⟨he, sendMessage_error_state db i now newId destinationErrorMsg he⟩
  · intro hcount hcontra
    have hfve := (sendMessage_error_iff db i now newId destinationErrorMsg).mp hcontra
    unfold firstValidationError at hfve
    split at hfve
    · exact absurd (Option.some.inj hfve) (by decide)
    · split at hfve
      · rename_i hne
        simp [hcount] at hne
      · split at hfve
        · exact absurd (Option.some.inj hfve) (by decide)
        · split at hfve
          · exact absurd (Option.some.inj hfve) (by decide)
          · split at hfve
            · exact absurd (Option.some.inj hfve) (by decide)
            · split at hfve
              · split at hfve
                · exact absurd (Option.some.inj hfve) (by decide)
                · split at hfve
                  · exact absurd hfve (by simp)
                  · exact absurd (Option.some.inj hfve) (by decide)
              · exact absurd hfve (by simp)

/-- C2 witness: with an author present, a zero-destination input fails with
the exactly-one-destination error and changes nothing, and a one-destination
input never produces that error. -/
theorem sendMessage_destination_count_witness :
    (sendMessage { users := [{ id := "a" }] } { author_id := "a", content := "x" } 3 "n2").1 =
      Except.error destinationErrorMsg ∧
    (sendMessage { users := [{ id := "a" }] } { author_id := "a", content := "x" } 3 "n2").2 =
      { users := [{ id := "a" }] } ∧
    (sendMessage { users := [{ id := "a" }] }
        { author_id := "a", content := "x", recipient_id := some "b" } 3 "n2").1 ≠
      Except.error destinationErrorMsg := by
  have h1 := (sendMessage_destination_count { users := [{ id := "a" }] }
    { author_id := "a", content := "x" } 3 "n2").1 (by decide) (by decide)
  have h2 := (sendMessage_destination_count { users := [{ id := "a" }] }
    { author_id := "a", content := "x", recipient_id := some "b" } 3 "n2").2 (by decide)
  exact ⟨h1.1, h1.2, h2⟩

/-- C4: when every earlier validation passes and the input carries a (truthy)
reply target: a missing target message yields the reply-target-not-found
error, and an existing target that does not share the new message's
destination yields the cross-conversation error — membership in both
conversations involved is irrelevant, as no non-membership is assumed. -/
theorem sendMessage_reply_validation (db : DB) (i : SendMessageInput) (now : Int)
    (newId : String)
    (hA : (db.users.any (fun u => u.id == i.author_id)) = true)
    (hcount : destinationCount i = 1)
    (hch : (isTruthy i.channel_id && !(channelMemberExists db i)) = false)
    (hg : (isTruthy i.group_id && !(groupMemberExists db i)) = false)
    (hr : (isTruthy i.recipient_id && !(recipientExists db i)) = false)
    (hreply : isTruthy i.reply_to_id = true) :
    (db.messages.find? (fun m => some m.id == i.reply_to_id) = none →
      (sendMessage db i now newId).1 = Except.error replyTargetErrorMsg) ∧
    (∀ orig, db.messages.find? (fun m => some m.id == i.reply_to_id) = some orig →
      sameDest i orig = false →
      (sendMessage db i now newId).1 = Except.error replyCrossErrorMsg) := by
  constructor
  · intro hfind
    refine (sendMessage_error_iff db i now newId replyTargetErrorMsg).mpr ?_
    unfold firstValidationError
    simp [hA, hcount, hch, hg, hr, hreply, hfind]
  · intro orig hfind hsame
    refine (sendMessage_error_iff db i now newId replyCrossErrorMsg).mpr ?_
    unfold firstValidationError
    simp [hA, hcount, hch, hg, hr, hreply, hfind, hsame]

/-- C4 witness: replying to a missing message fails with the target-not-found
error; replying from channel `ch1` to a message living in channel `ch2`
fails with the cross-conversation error even though the author belongs to
both channels. -/
theorem sendMessage_reply_validation_witness :
    (sendMessage
        { users := [{ id := "a" }],
          channelMembers := [{ channel_id := "ch1", user_id := "a" },
                             { channel_id := "ch2", user_id := "a" }] }
        { author_id := "a", channel_id := some "ch1", content := "re",
          reply_to_id := some "mo" } 9 "n3").1 =
      Except.error replyTargetErrorMsg ∧
    (sendMessage
        { users := [{ id := "a" }],
          channelMembers := [{ channel_id := "ch1", user_id := "a" },
                             { channel_id := "ch2", user_id := "a" }],
          messages := [{ id := "mo", author_id := "a", channel_id := some "ch2" }] }
        { author_id := "a", channel_id := some "ch1", content := "re",
          reply_to_id := some "mo" } 9 "n3").1 =
      Except.error replyCrossErrorMsg := by
  constructor
  · exact (sendMessage_reply_validation _ _ 9 "n3" (by decide) (by decide) (by decide)
      (by decide) (by decide) (by decide)).1 (by decide)
  · exact (sendMessage_reply_validation _ _ 9 "n3" (by decide) (by decide) (by decide)
      (by decide) (by decide) (by decide)).2
      { id := "mo", author_id := "a", channel_id := some "ch2" } (by decide) (by decide)

/-!
### `markMessageRead` idempotency
-/

/-- C7: under the documented uniqueness invariant (at most one receipt per
(message, user) pair), marking an existing message read twice by an existing
user returns the identical receipt the second time (same id, same
`read_at`), leaves the store unchanged, and the table holds exactly one
receipt for the pair afterwards. -/
theorem markMessageRead_idempotent (db : DB) (mid uid : String) (t1 t2 : Int)
    (id1 id2 : String) (r1 : MessageRead) (db1 : DB)
    (hcount : (db.messageReads.filter
      (fun r => r.message_id == mid && r.user_id == uid)).length ≤ 1)
    (h1 : markMessageRead db mid uid t1 id1 = Except.ok (r1, db1)) :
    markMessageRead db1 mid uid t2 id2 = Except.ok (r1, db1) ∧
    (db1.messageReads.filter
      (fun r => r.message_id == mid && r.user_id == uid)).length = 1 := by
  unfold markMessageRead at h1
  cases hm : db.messages.any (fun m => m.id == mid) with
  | false => rw [hm] at h1; simp at h1
  | true =>
    rw [hm] at h1
    cases hu : db.users.any (fun u => u.id == uid) with
    | false => rw [hu] at h1; simp at h1
    | true =>
      rw [hu] at h1
      simp only [Bool.not_true, Bool.false_eq_true, if_false] at h1
      cases hfind : db.messageReads.find? (fun r => r.message_id == mid && r.user_id == uid) with
      | some r =>
        rw [hfind] at h1
        simp only [Except.ok.injEq, Prod.mk.injEq] at h1
        obtain ⟨hre, hdbe⟩ := h1
        subst hre
        subst hdbe
        constructor
        · unfold markMessageRead
          rw [hm, hu, hfind]
          simp
        · have hpr := List.find?_some hfind
          have hmm2 := List.mem_of_find?_eq_some hfind
          have hmemf : r ∈ db.messageReads.filter
              (fun rr => rr.message_id == mid && rr.user_id == uid) :=
            List.mem_filter.mpr ⟨hmm2, hpr⟩
          have hge : 1 ≤ (db.messageReads.filter
              (fun rr => rr.message_id == mid && rr.user_id == uid)).length :=
            List.length_pos.mpr (List.ne_nil_of_mem hmemf)
          omega
      | none =>
        rw [hfind] at h1
        simp only [Except.ok.injEq, Prod.mk.injEq] at h1
        obtain ⟨hre, hdbe⟩ := h1
        have hall := List.find?_eq_none.mp hfind
        have hfilnil : db.messageReads.filter
            (fun r => r.message_id == mid && r.user_id == uid) = [] :=
          List.filter_eq_nil_iff.mpr hall
        constructor
        · unfold markMessageRead
          have hm1 : db1.messages.any (fun m => m.id == mid) = true := by
            rw [← hdbe]; exact hm
          have hu1 : db1.users.any (fun u => u.id == uid) = true := by
            rw [← hdbe]; exact hu
          rw [hm1, hu1]
          simp only [Bool.not_true, Bool.false_eq_true, if_false]
          have hfind1 : db1.messageReads.find?
              (fun r => r.message_id == mid && r.user_id == uid) = some r1 := by
            rw [← hdbe]
            simp only [List.find?_append, hfind]
            rw [← hre]
            simp [List.find?]
          rw [hfind1]
        · rw [← hdbe]
          simp only [List.filter_append, hfilnil, List.nil_append, ← hre]
          simp [List.filter]

/-- C7 witness: concrete double mark-as-read of one channel message. -/
theorem markMessageRead_idempotent_witness :
    markMessageRead
        { users := [{ id := "b" }], messages := [{ id := "m1", author_id := "a" }],
          messageReads := [{ id := "r1", message_id := "m1", user_id := "b", read_at := 50 }] }
        "m1" "b" 60 "r2" =
      Except.ok ({ id := "r1", message_id := "m1", user_id := "b", read_at := 50 },
        { users := [{ id := "b" }], messages := [{ id := "m1", author_id := "a" }],
          messageReads := [{ id := "r1", message_id := "m1", user_id := "b", read_at := 50 }] }) ∧
    (({ users := [{ id := "b" }], messages := [{ id := "m1", author_id := "a" }],
        messageReads :=
          [{ id := "r1", message_id := "m1", user_id := "b", read_at := 50 }] } : DB)
      |>.messageReads.filter (fun r => r.message_id == "m1" && r.user_id == "b")).length = 1 :=
  markMessageRead_idempotent
    { users := [{ id := "b" }], messages := [{ id := "m1", author_id := "a" }] }
    "m1" "b" 50 60 "r1" "r2"
    { id := "r1", message_id := "m1", user_id := "b", read_at := 50 }
    { users := [{ id := "b" }], messages := [{ id := "m1", author_id := "a" }],
      messageReads := [{ id := "r1", message_id := "m1", user_id := "b", read_at := 50 }] }
    (by decide) (by rfl)

/-!
### Concrete example store for the aggregator witnesses
-/

/-- Example store: three users, two channels (one without messages), one
unnamed group, and one direct message from Alice to Bob. -/
def dbA : DB :=
  { users := [{ id := "a", display_name := "Alice" },
              { id := "b", display_name := "Bob" },
              { id := "c", display_name := "Carol" }],
    channels := [{ id := "ch1", name := "general" }, { id := "ch2", name := "random" }],
    groups := [{ id := "g1" }],
    messages :=
      [{ id := "m1", content := "hello", author_id := "a", channel_id := some "ch1",
         created_at := 10 },
       { id := "m2", content := "grp", author_id := "a", group_id := some "g1",
         created_at := 5 },
       { id := "m3", content := "dm", author_id := "a", recipient_id := some "b",
         created_at := 7 }],
    channelMembers := [{ channel_id := "ch1", user_id := "a" },
                       { channel_id := "ch1", user_id := "b" },
                       { channel_id := "ch2", user_id := "b" }],
    groupMembers := [{ group_id := "g1", user_id := "a" },
                     { group_id := "g1", user_id := "b" },
                     { group_id := "g1", user_id := "c" }] }

/-- The channel-`ch1` conversation of `dbA` as Bob sees it. -/
def convCh1 : Conversation := buildChannelConv dbA "b" { id := "ch1", name := "general" }

/-- The message-less channel-`ch2` conversation of `dbA` as Bob sees it. -/
def convCh2 : Conversation := buildChannelConv dbA "b" { id := "ch2", name := "random" }

/-- The group-`g1` conversation of `dbA` as Bob sees it. -/
def convG1 : Conversation := buildGroupConv dbA "b" { id := "g1" }

/-- C1 witness: Bob's channel conversation in the concrete store satisfies
the anti-join unread-count characterisation (here, one unread message). -/
theorem getUserConversations_unread_count_witness :
    convCh1 ∈ getUserConversations dbA "b" ∧
    convCh1.unread_count = specUnreadCount dbA "b" convCh1.id convCh1.type ∧
    convCh1.unread_count = 1 :=
  ⟨by decide, getUserConversations_unread_count dbA "b" convCh1 (by decide), by decide⟩

/-- C5 witness: in the concrete store the returned list is sorted, the
message-less conversations keep their merged order, and the message-less
channel has no last message and a zero unread count. -/
theorem getUserConversations_sorted_witness :
    (getUserConversations dbA "b").Pairwise sortedBefore ∧
    (getUserConversations dbA "b").filter (fun c => c.last_message.isNone) =
      (mergedConversations dbA "b").filter (fun c => c.last_message.isNone) ∧
    convCh2.last_message = none ∧ convCh2.unread_count = 0 := by
  have h := getUserConversations_sorted dbA "b"
  have h3 := h.2.2 convCh2 (by decide) (by decide)
  exact ⟨h.1, h.2.1, h3.1, h3.2⟩

/-- C6 witness: the unnamed group of the concrete store is shown to Bob as
the join of the other participants' display names, "Alice, Carol". -/
theorem getUserConversations_group_name_witness :
    convG1 ∈ getUserConversations dbA "b" ∧
    convG1.name = "Alice, Carol" ∧
    (∃ g, g ∈ dbA.groups ∧ g.id = convG1.id ∧
      convG1.name = specGroupName "b" g.name convG1.participants) :=
  ⟨by decide, by decide,
    getUserConversations_group_name dbA "b" convG1 (by decide) (by decide) (by decide)⟩

/-!
### Typing indicators
-/

/-- Store for the C8 counterexample: one fresh channel-located indicator. -/
def dbT : DB :=
  { typingIndicators := [{ id := "t1", user_id := "u", channel_id := some "ch",
                           started_at := 100 }] }

/-- C8 counterexample: `startTyping` with *no* location, for a user who has a
channel-located indicator, does not insert a new "no location" row as exact
location-tuple matching would require; it refreshes the channel row instead
(one row remains, and the returned indicator still carries the channel). -/
theorem startTyping_no_location_counterexample :
    (startTyping dbT { user_id := "u" } 105 "t2").2.typingIndicators =
      [{ id := "t1", user_id := "u", channel_id := some "ch", started_at := 105 }] ∧
    (startTyping dbT { user_id := "u" } 105 "t2").1.channel_id = some "ch" := by
  decide

/-- C8 amended: `startTyping` upserts by the user plus only the input's first
truthy location field.  Starting from a store with no indicators, a first
call with a channel location inserts one row timestamped `t1`; then (a) a
second call for the same channel leaves one row whose timestamp is the
second call's `t2` (strictly later whenever `t1 < t2`), (b) a second call
for a group location inserts an independent second row, and (c) a second
call with *no* location refreshes the channel row, whatever its location,
rather than inserting a "no location" row. -/
theorem startTyping_upsert_amended (u c g : String) (t1 t2 : Int) (id1 id2 : String)
    (db : DB) (hdb : db.typingIndicators = [])
    (hc : c ≠ "") (hg : g ≠ "") (htw : t2 - 10 ≤ t1)
    (r1 : TypingIndicator) (db1 : DB)
    (h1 : startTyping db { user_id := u, channel_id := some c } t1 id1 = (r1, db1)) :
    r1 = { id := id1, user_id := u, channel_id := some c, started_at := t1 } ∧
    ((startTyping db1 { user_id := u, channel_id := some c } t2 id2).2.typingIndicators =
      [{ id := id1, user_id := u, channel_id := some c, started_at := t2 }] ∧
     (startTyping db1 { user_id := u, channel_id := some c } t2 id2).1.started_at = t2 ∧
     (startTyping db1 { user_id := u, channel_id := some c } t2 id2).1.id = id1) ∧
    ((startTyping db1 { user_id := u, group_id := some g } t2 id2).2.typingIndicators =
      [{ id := id1, user_id := u, channel_id := some c, started_at := t1 },
       { id := id2, user_id := u, group_id := some g, started_at := t2 }]) ∧
    ((startTyping db1 { user_id := u } t2 id2).2.typingIndicators =
      [{ id := id1, user_id := u, channel_id := some c, started_at := t2 }]) := by
  have hkeep : ¬ (t1 < t2 - 10) := by omega
  unfold startTyping at h1
  rw [hdb] at h1
  simp only [List.filter_nil, List.find?_nil, Prod.mk.injEq] at h1
  obtain ⟨hr1, hdb1⟩ := h1
  have hTI : db1.typingIndicators =
      [{ id := id1, user_id := u, channel_id := some c, started_at := t1 }] := by
    rw [← hdb1]
    simp [orNull, isTruthy, hc]
  refine ⟨?_, ⟨?_, ?_, ?_⟩, ?_, ?_⟩
  · rw [← hr1]
    simp [orNull, isTruthy, hc]
  · unfold startTyping
    rw [hTI]
    simp [startTypingMatches, isTruthy, hc, hkeep, List.filter, List.find?]
  · unfold startTyping
    rw [hTI]
    simp [startTypingMatches, isTruthy, hc, hkeep, List.filter, List.find?]
  · unfold startTyping
    rw [hTI]
    simp [startTypingMatches, isTruthy, hc, hkeep, List.filter, List.find?]
  · unfold startTyping
    rw [hTI]
    simp [startTypingMatches, orNull, isTruthy, hc, hg, hkeep, List.filter, List.find?]
  · unfold startTyping
    rw [hTI]
    simp [startTypingMatches, isTruthy, hkeep, List.filter, List.find?]

/-- C8 amended witness: the amended behaviours at concrete inputs. -/
theorem startTyping_upsert_amended_witness :
    ({ id := "i1", user_id := "u", channel_id := some "c",
       started_at := 100 } : TypingIndicator) =
      { id := "i1", user_id := "u", channel_id := some "c", started_at := 100 } ∧
    ((startTyping
        { typingIndicators := [{ id := "i1", user_id := "u", channel_id := some "c",
                                 started_at := 100 }] }
        { user_id := "u", channel_id := some "c" } 104 "i2").2.typingIndicators =
      [{ id := "i1", user_id := "u", channel_id := some "c", started_at := 104 }] ∧
     (startTyping
        { typingIndicators := [{ id := "i1", user_id := "u", channel_id := some "c",
                                 started_at := 100 }] }
        { user_id := "u", channel_id := some "c" } 104 "i2").1.started_at = 104 ∧
     (startTyping
        { typingIndicators := [{ id := "i1", user_id := "u", channel_id := some "c",
                                 started_at := 100 }] }
        { user_id := "u", channel_id := some "c" } 104 "i2").1.id = "i1") ∧
    ((startTyping
        { typingIndicators := [{ id := "i1", user_id := "u", channel_id := some "c",
                                 started_at := 100 }] }
        { user_id := "u", group_id := some "g" } 104 "i2").2.typingIndicators =
      [{ id := "i1", user_id := "u", channel_id := some "c", started_at := 100 },
       { id := "i2", user_id := "u", group_id := some "g", started_at := 104 }]) ∧
    ((startTyping
        { typingIndicators := [{ id := "i1", user_id := "u", channel_id := some "c",
                                 started_at := 100 }] }
        { user_id := "u" } 104 "i2").2.typingIndicators =
      [{ id := "i1", user_id := "u", channel_id := some "c", started_at := 104 }]) :=
  startTyping_upsert_amended "u" "c" "g" 100 104 "i1" "i2" { } (by rfl)
    (by decide) (by decide) (by decide)
    { id := "i1", user_id := "u", channel_id := some "c", started_at := 100 }
    { typingIndicators := [{ id := "i1", user_id := "u", channel_id := some "c",
                             started_at := 100 }] }
    (by rfl)

/-- C9: `getTypingIndicators` never returns an indicator whose `started_at`
lies strictly before the 30-second visibility window preceding the call,
regardless of which rows physically remain in the table. -/
theorem getTypingIndicators_window (db : DB) (now : Int)
    (channelId groupId recipientId : Option String) (t : TypingIndicator)
    (h : t ∈ getTypingIndicators db now channelId groupId recipientId) :
    now - 30 ≤ t.started_at := by
  rw [getTypingIndicators] at h
  have hp := (List.mem_filter.mp h).2
  simp only [Bool.and_eq_true, decide_eq_true_eq] at hp
  exact hp.1.1.1

/-- C9 witness: a fresh indicator is returned and satisfies the window bound,
while a stale row physically present in the same table is filtered out. -/
theorem getTypingIndicators_window_witness :
    ({ id := "t1", user_id := "u", started_at := 95 } : TypingIndicator) ∈
      getTypingIndicators
        { typingIndicators := [{ id := "t0", user_id := "u", started_at := 10 },
                               { id := "t1", user_id := "u", started_at := 95 }] }
        100 none none none ∧
    (100 : Int) - 30 ≤ (95 : Int) ∧
    ({ id := "t0", user_id := "u", started_at := 10 } : TypingIndicator) ∉
      getTypingIndicators
        { typingIndicators := [{ id := "t0", user_id := "u", started_at := 10 },
                               { id := "t1", user_id := "u", started_at := 95 }] }
        100 none none none :=
  ⟨by decide,
    getTypingIndicators_window
      { typingIndicators := [{ id := "t0", user_id := "u", started_at := 10 },
                             { id := "t1", user_id := "u", started_at := 95 }] }
      100 none none none { id := "t1", user_id := "u", started_at := 95 } (by decide),
    by decide⟩

/-!
### `searchMessages` filter semantics
-/

/-- Store for the C10 witness: the caller `u1` is a member of `chan1`, and a
matching direct message from `a1` to `u1` exists outside that channel. -/
def dbS : DB :=
  { users := [{ id := "a1", display_name := "Arthur" },
              { id := "u1", display_name := "Uma" }],
    channels := [{ id := "chan1", name := "general" }],
    channelMembers := [{ channel_id := "chan1", user_id := "u1" }],
    messages := [{ id := "m1", content := "hello world", author_id := "a1",
                   recipient_id := some "u1", created_at := 4 }] }

/-- C10: the channel/group filter of `searchMessages` does not restrict
results to the filtered conversation.  Concretely, a member querying with a
channel filter still receives a matching direct message outside that channel
(the access conditions are a disjunction); and the filter's only restrictive
effect is that a non-member of the named channel, or of the named group,
receives an empty list. -/
theorem searchMessages_filter_disjunctive :
    ((dbS.channelMembers.any (fun cm =>
        some cm.channel_id == some "chan1" && cm.user_id == "u1")) = true ∧
     ∃ r, r ∈ searchMessages dbS "hello" "u1" (some "chan1") none 20 ∧
       r.1.channel_id ≠ some "chan1") ∧
    (∀ (db : DB) (q u : String) (cf gf : Option String) (lim : Nat),
      (isTruthy cf = true →
        (db.channelMembers.any (fun cm =>
          some cm.channel_id == cf && cm.user_id == u)) = false →
        searchMessages db q u cf gf lim = []) ∧
      (isTruthy gf = true →
        (db.groupMembers.any (fun gm =>
          some gm.group_id == gf && gm.user_id == u)) = false →
        searchMessages db q u cf gf lim = [])) := by
  constructor
  · exact ⟨by decide,
      ⟨(({ id := "m1", content := "hello world", author_id := "a1",
           recipient_id := some "u1", created_at := 4 } : Message),
        ({ id := "a1", display_name := "Arthur" } : User)),
       by decide, by decide⟩⟩
  · intro db q u cf gf lim
    constructor
    · intro hcf hmem
      unfold searchMessages
      simp [hcf, hmem]
    · intro hgf hmem
      unfold searchMessages
      by_cases hfirst : (isTruthy cf &&
          !(db.channelMembers.any (fun cm =>
            some cm.channel_id == cf && cm.user_id == u))) = true
      · simp [hfirst]
      · simp [hfirst, hgf, hmem]

/-- C10 witness: a non-member caller with a channel filter receives the empty
list, instantiating the universally quantified restriction part. -/
theorem searchMessages_filter_disjunctive_witness :
    searchMessages dbS "hello" "a1" (some "chan1") none 20 = [] :=
  (searchMessages_filter_disjunctive.2 dbS "hello" "a1" (some "chan1") none 20).1
    (by decide) (by decide)

end Chat
